import Mathlib

/-!
Verification of the authentication and authorization subsystem of the
Biophere backend (src/backend/auth.py, src/backend/main.py,
src/backend/create_admin.py, src/backend/models.py).

The Python handlers are shallowly embedded as pure Lean functions over an
explicit database state (a list of user records).  The external
cryptographic libraries (passlib bcrypt, python-jose HS256) are modelled
as deterministic keyed digests: none of the properties proved here depend
on collision resistance, only on the control flow of the handlers around
the library calls.  Exceptions raised by a handler are modelled as error
values of explicit result types.
-/

namespace Biophere

/-! ## Decimal strings

The code converts account ids to strings with Python str and back with
Python int (auth.py lines 93, 106, 125), and bcrypt-style hashes are
dollar-separated fields.  We model decimal printing and parsing directly
on lists of characters.  The parser models the core of Python int on
strings: an optional sign followed by decimal digits.  (Surrounding
whitespace and underscore separators accepted by Python int are not
modelled; no code path here exercises them.)
-/

/-- The character of a single decimal digit. -/
def digitChar (d : Nat) : Char := Char.ofNat (48 + d)

/-- Decimal digits of a natural number, least significant first,
with explicit fuel so that the definition is structural. -/
def natDigitsRevAux : Nat → Nat → List Nat
  | 0, _ => []
  | fuel + 1, n => if n < 10 then [n] else n % 10 :: natDigitsRevAux fuel (n / 10)

/-- Decimal digits of a natural number, least significant first. -/
def natDigitsRev (n : Nat) : List Nat := natDigitsRevAux (n + 1) n

/-- Model of Python str on a nonnegative integer id. -/
def pyStr (n : Nat) : String := String.mk ((natDigitsRev n).reverse.map digitChar)

/-- Decode one decimal digit character. -/
def charDigit (c : Char) : Option Nat :=
  if 48 ≤ c.toNat ∧ c.toNat ≤ 57 then some (c.toNat - 48) else none

/-- Decode a list of characters into digits; none if any is not a digit. -/
def digitsOfChars : List Char → Option (List Nat)
  | [] => some []
  | c :: cs =>
    match charDigit c, digitsOfChars cs with
    | some d, some ds => some (d :: ds)
    | _, _ => none

/-- Value of a big-endian digit list. -/
def valOfDigits (l : List Nat) : Nat := l.foldl (fun acc d => acc * 10 + d) 0

/-- Parse a nonempty all-digit character list as a natural number. -/
def parseNatChars (cs : List Char) : Option Nat :=
  match cs with
  | [] => none
  | _ :: _ => (digitsOfChars cs).map valOfDigits

/-- Model of Python int applied to a string: optional sign, then decimal
digits; any other shape raises ValueError, modelled as none. -/
def pyInt (s : String) : Option Int :=
  match s.data with
  | [] => none
  | c :: rest =>
    if c = '+' then (parseNatChars rest).map (fun n => (n : Int))
    else if c = '-' then (parseNatChars rest).map (fun n => -(n : Int))
    else (parseNatChars (c :: rest)).map (fun n => (n : Int))

/-- Value of a little-endian digit list. -/
def valRev : List Nat → Nat
  | [] => 0
  | d :: ds => d + 10 * valRev ds

theorem valRev_natDigitsRevAux (fuel : Nat) :
    ∀ n : Nat, n < fuel → valRev (natDigitsRevAux fuel n) = n := by
  induction fuel with
  | zero => intro n h; omega
  | succ f ih =>
    intro n h
    by_cases h10 : n < 10
    · simp [natDigitsRevAux, h10, valRev]
    · have hdiv : n / 10 < n := Nat.div_lt_self (by omega) (by omega)
      have hrec := ih (n / 10) (by omega)
      simp only [natDigitsRevAux, if_neg h10, valRev, hrec]
      omega

theorem natDigitsRevAux_lt (fuel : Nat) :
    ∀ n d : Nat, d ∈ natDigitsRevAux fuel n → d < 10 := by
  induction fuel with
  | zero => intro n d h; simp [natDigitsRevAux] at h
  | succ f ih =>
    intro n d h
    by_cases h10 : n < 10
    · simp [natDigitsRevAux, h10] at h; omega
    · simp only [natDigitsRevAux, if_neg h10, List.mem_cons] at h
      rcases h with h | h
      · omega
      · exact ih _ _ h

theorem natDigitsRev_lt (n : Nat) : ∀ d ∈ natDigitsRev n, d < 10 :=
  fun d hd => natDigitsRevAux_lt (n + 1) n d hd

theorem valRev_natDigitsRev (n : Nat) : valRev (natDigitsRev n) = n :=
  valRev_natDigitsRevAux (n + 1) n (Nat.lt_succ_self n)

theorem natDigitsRev_ne_nil (n : Nat) : natDigitsRev n ≠ [] := by
  unfold natDigitsRev natDigitsRevAux
  by_cases h10 : n < 10 <;> simp [h10]

theorem charDigit_digitChar : ∀ d : Nat, d < 10 → charDigit (digitChar d) = some d := by
  decide

theorem digitsOfChars_map_digitChar :
    ∀ l : List Nat, (∀ d ∈ l, d < 10) → digitsOfChars (l.map digitChar) = some l := by
  intro l
  induction l with
  | nil => intro _; rfl
  | cons d ds ih =>
    intro h
    have hd : d < 10 := h d (List.mem_cons_self d ds)
    have hds := ih (fun x hx => h x (List.mem_cons_of_mem d hx))
    simp only [List.map_cons, digitsOfChars, charDigit_digitChar d hd, hds]

theorem valOfDigits_append_singleton (l : List Nat) (d : Nat) :
    valOfDigits (l ++ [d]) = valOfDigits l * 10 + d := by
  simp [valOfDigits, List.foldl_append]

theorem valOfDigits_reverse (l : List Nat) : valOfDigits l.reverse = valRev l := by
  induction l with
  | nil => rfl
  | cons d ds ih =>
    simp only [List.reverse_cons, valOfDigits_append_singleton, ih, valRev]
    omega

theorem parseNatChars_pyStr (n : Nat) : parseNatChars (pyStr n).data = some n := by
  have hlt : ∀ d ∈ (natDigitsRev n).reverse, d < 10 := by
    intro d hd
    exact natDigitsRev_lt n d (List.mem_reverse.mp hd)
  have hdig := digitsOfChars_map_digitChar (natDigitsRev n).reverse hlt
  show parseNatChars ((natDigitsRev n).reverse.map digitChar) = some n
  cases hcs : (natDigitsRev n).reverse.map digitChar with
  | nil =>
    have hnil : natDigitsRev n = [] := by
      have : (natDigitsRev n).reverse = [] := by
        cases h : (natDigitsRev n).reverse with
        | nil => rfl
        | cons x xs => rw [h] at hcs; simp at hcs
      simpa using congrArg List.reverse this
    exact absurd hnil (natDigitsRev_ne_nil n)
  | cons c cs =>
    show (digitsOfChars (c :: cs)).map valOfDigits = some n
    rw [← hcs, hdig]
    show some (valOfDigits (natDigitsRev n).reverse) = some n
    rw [valOfDigits_reverse, valRev_natDigitsRev]

theorem digitChar_not_sign : ∀ d : Nat, d < 10 →
    digitChar d ≠ '+' ∧ digitChar d ≠ '-' ∧ digitChar d ≠ '$' := by
  decide

/-- Round trip of the model of Python str followed by Python int. -/
theorem pyInt_pyStr (n : Nat) : pyInt (pyStr n) = some (n : Int) := by
  have hstr := parseNatChars_pyStr n
  unfold pyInt
  cases hcs : (pyStr n).data with
  | nil =>
    rw [hcs] at hstr
    simp [parseNatChars] at hstr
  | cons c cs =>
    have hc : c ∈ (natDigitsRev n).reverse.map digitChar := by
      have : (pyStr n).data = (natDigitsRev n).reverse.map digitChar := rfl
      rw [this] at hcs
      rw [hcs]
      exact List.mem_cons_self c cs
    obtain ⟨d, hd, rfl⟩ := List.mem_map.mp hc
    have hd10 : d < 10 := natDigitsRev_lt n d (List.mem_reverse.mp hd)
    obtain ⟨hp, hm, _⟩ := digitChar_not_sign d hd10
    rw [hcs] at hstr
    simp [hp, hm, hstr]

/-! ## Password hasher

auth.py lines 29-33 delegate to the external passlib bcrypt context:
get_password_hash calls pwd_context.hash and verify_password calls
pwd_context.verify.  Modelled from the spec: the hasher is an external
library whose code is not in the repository; per the spec contract, hash
embeds a random salt in an opaque string (the salt source is an explicit
argument here), and verify recomputes the digest with the salt embedded in
the stored hash, returning false on a malformed hash without throwing.
The digest is an abstract deterministic keyed fold, standing in for
bcrypt; no property proved here depends on its collision resistance. -/

/-- Deterministic fold of a string into a 64-bit accumulator, the abstract
stand-in for the cryptographic digests of the external libraries. -/
def strFold (acc : Nat) (s : String) : Nat :=
  s.data.foldl (fun h c => (h * 31 + c.toNat + 1) % 2 ^ 64) acc

/-- Salted digest of a password: the bcrypt stand-in. -/
def digestFn (salt : Nat) (password : String) : Nat :=
  strFold ((5381 * 31 + salt) % 2 ^ 64) password

/-- Split a character list at the first dollar separator. -/
def splitAtDollar : List Char → Option (List Char × List Char)
  | [] => none
  | c :: cs =>
    if c = '$' then some ([], cs)
    else
      match splitAtDollar cs with
      | some (l, r) => some (c :: l, r)
      | none => none

/-- Parse an opaque hash string into its embedded salt and digest;
none on a malformed hash. -/
def parseHash (h : String) : Option (Nat × Nat) :=
  match splitAtDollar h.data with
  | none => none
  | some (saltCs, digestCs) =>
    match parseNatChars saltCs, parseNatChars digestCs with
    | some s, some d => some (s, d)
    | _, _ => none

/-- Model of get_password_hash (auth.py lines 32-33): a salted one-way
hash; the random salt drawn by the library is the explicit argument. -/
def get_password_hash (salt : Nat) (password : String) : String :=
  pyStr salt ++ "$" ++ pyStr (digestFn salt password)

/-- Model of verify_password (auth.py lines 29-30): recompute the digest
with the salt embedded in the stored hash; false on a malformed hash. -/
def verify_password (plain_password : String) (hashed_password : String) : Bool :=
  match parseHash hashed_password with
  | none => false
  | some (salt, digest) => digestFn salt plain_password == digest

theorem splitAtDollar_append (l₁ : List Char) (l₂ : List Char)
    (h₁ : ∀ c ∈ l₁, c ≠ '$') :
    splitAtDollar (l₁ ++ '$' :: l₂) = some (l₁, l₂) := by
  induction l₁ with
  | nil => simp [splitAtDollar]
  | cons c cs ih =>
    have hc : c ≠ '$' := h₁ c (List.mem_cons_self c cs)
    have hrec := ih (fun x hx => h₁ x (List.mem_cons_of_mem c hx))
    simp [splitAtDollar, hc, hrec]

theorem pyStr_no_dollar (n : Nat) : ∀ c ∈ (pyStr n).data, c ≠ '$' := by
  intro c hc
  have hc2 : c ∈ (natDigitsRev n).reverse.map digitChar := hc
  obtain ⟨d, hd, rfl⟩ := List.mem_map.mp hc2
  exact (digitChar_not_sign d (natDigitsRev_lt n d (List.mem_reverse.mp hd))).2.2

theorem parseHash_get_password_hash (salt : Nat) (password : String) :
    parseHash (get_password_hash salt password) =
      some (salt, digestFn salt password) := by
  have hdata : (get_password_hash salt password).data =
      (pyStr salt).data ++ '$' :: (pyStr (digestFn salt password)).data := by
    simp [get_password_hash, String.data_append]
  unfold parseHash
  rw [hdata, splitAtDollar_append _ _ (pyStr_no_dollar salt)]
  simp [parseNatChars_pyStr]

/-! ## Data model and token issuer and verifier

models.py defines the User record; auth.py lines 13-15 fix the module
configuration and lines 35-39 issue JWTs through the external jose
library.  A JWT string either parses into a claims object carrying a
MAC over those claims, or it does not parse at all; the type TokenStr
partitions the token-string space accordingly.  The MAC (HS256 in the
code) is the abstract keyed digest strFold over a serialization of the
claims.  Time is in seconds since the epoch.  Issued tokens always carry
an exp claim, as create_access_token always sets one. -/

/-- users table (models.py lines 6-16). -/
structure User where
  id : Nat
  name : String
  email : String
  phone : String
  password_hash : String
  is_admin : Bool
deriving DecidableEq

/-- auth.py line 13: default value of the SECRET_KEY configuration. -/
def SECRET_KEY : String := "supersecret"

/-- auth.py line 15: seven days, in minutes. -/
def ACCESS_TOKEN_EXPIRE_MINUTES : Nat := 60 * 24 * 7

/-- JWT claims as produced and consumed by this code: an optional sub
claim and the expiry timestamp (seconds). -/
structure Claims where
  sub : Option String
  exp : Nat
deriving DecidableEq

/-- The keyed MAC over the claims: abstract stand-in for HS256. -/
def macFn (key : String) (c : Claims) : Nat :=
  let h0 := strFold 5381 key
  let h1 :=
    match c.sub with
    | none => (h0 * 31) % 2 ^ 64
    | some s => strFold ((h0 * 31 + 7) % 2 ^ 64) s
  (h1 * 31 + c.exp) % 2 ^ 64

/-- A token string: either it parses into claims plus an attached MAC,
or it is not a well-formed JWT at all. -/
inductive TokenStr where
  | badFormat (raw : String)
  | wellFormed (claims : Claims) (mac : Nat)
deriving DecidableEq

/-- Errors of the external jose decoder, all subclasses of JWTError. -/
inductive JWTErr where
  | badFormat
  | invalidSignature
  | expired
deriving DecidableEq

/-- Model of jose jwt.encode with HS256 (called at auth.py line 39). -/
def jwt_encode (key : String) (c : Claims) : TokenStr :=
  .wellFormed c (macFn key c)

/-- Model of jose jwt.decode (called at auth.py line 119): signature
check, then expiry check against the current time. -/
def jwt_decode (key : String) (now : Nat) (t : TokenStr) : Except JWTErr Claims :=
  match t with
  | .badFormat _ => .error .badFormat
  | .wellFormed c m =>
    if m == macFn key c then
      if now > c.exp then .error .expired else .ok c
    else .error .invalidSignature

/-- Model of create_access_token (auth.py lines 35-39): copy the data
claims, set exp to now plus the delta (default
ACCESS_TOKEN_EXPIRE_MINUTES), and sign.  The data dict the code passes
always holds just the sub claim. -/
def create_access_token (key : String) (now : Nat) (sub : Option String)
    (expires_delta : Option Nat) : TokenStr :=
  jwt_encode key { sub := sub, exp := now + expires_delta.getD (ACCESS_TOKEN_EXPIRE_MINUTES * 60) }

/-- Model of get_user_by_email (auth.py lines 41-42): first user whose
email matches. -/
def get_user_by_email (db : List User) (email : String) : Option User :=
  db.find? (fun u => u.email == email)

/-- Outcome of the get_current_user dependency: the resolved account, the
undifferentiated HTTP 401 credentials_exception, or an exception raised
outside the try/except and escaping the handler. -/
inductive AuthOutcome where
  | ok (u : User)
  | credentialsInvalid
  | uncaughtError (msg : String)
deriving DecidableEq

/-- Model of get_current_user (auth.py lines 112-128).  The try/except
covers jwt.decode and the sub-missing check, collapsing JWTError to the
401 credentials_exception; the int conversion of the subject at line 125
sits outside the try block, so a non-integer subject raises an uncaught
ValueError.  The id lookup compares the parsed integer with the integer
primary key. -/
def get_current_user (key : String) (now : Nat) (token : TokenStr)
    (db : List User) : AuthOutcome :=
  match jwt_decode key now token with
  | .error _ => .credentialsInvalid
  | .ok payload =>
    match payload.sub with
    | none => .credentialsInvalid
    | some user_id =>
      match pyInt user_id with
      | none => .uncaughtError "ValueError"
      | some n =>
        match db.find? (fun u => ((u.id : Int) == n)) with
        | none => .credentialsInvalid
        | some u => .ok u

/-- Whether a token passes verification yet carries a subject string that
is not an integer literal: exactly the case where get_current_user raises
outside its try/except. -/
def subjectUnparseable (key : String) (now : Nat) (t : TokenStr) : Bool :=
  match jwt_decode key now t with
  | .error _ => false
  | .ok payload =>
    match payload.sub with
    | none => false
    | some s => (pyInt s).isNone

/-! ## Registration and login handlers (auth.py lines 44-107)

Requests are modelled as explicit argument records, the database as the
list of user rows, and a raised HTTPException as an error value.  A
handler that raises commits nothing, so the error constructors carry no
database: the state is unchanged.  The fresh primary key the database
would assign and the random salt the hasher would draw are explicit
arguments. -/

/-- The registration request body.  Modelled from the spec: schemas.py is
not under src/; the spec gives the body fields name, email, phone and
password.  A caller-supplied admin flag, if the schema were to accept one
at all, is carried here so that the handler can be seen to ignore it. -/
structure UserCreate where
  name : String
  email : String
  phone : String
  password : String
  is_admin : Option Bool
deriving DecidableEq

/-- HTTPExceptions raised by the two registration handlers. -/
inductive RegErr where
  | duplicateEmail
  | forbidden
deriving DecidableEq

/-- Model of register (auth.py lines 44-60): reject a registered email
with 400, otherwise insert the row with is_admin always False. -/
def register (salt : Nat) (nextId : Nat) (user : UserCreate)
    (db : List User) : Except RegErr (User × List User) :=
  match get_user_by_email db user.email with
  | some _ => .error .duplicateEmail
  | none =>
    let db_user : User :=
      { id := nextId, name := user.name, email := user.email, phone := user.phone,
        password_hash := get_password_hash salt user.password, is_admin := false }
    .ok (db_user, db ++ [db_user])

/-- Model of register_admin (auth.py lines 62-81): the duplicate-email
check runs first (400), then any email other than the sentinel is
rejected with 403, and the inserted row has is_admin True. -/
def register_admin (salt : Nat) (nextId : Nat) (user : UserCreate)
    (db : List User) : Except RegErr (User × List User) :=
  match get_user_by_email db user.email with
  | some _ => .error .duplicateEmail
  | none =>
    if user.email != "admin@biosfera.ru" then .error .forbidden
    else
      let db_user : User :=
        { id := nextId, name := user.name, email := user.email, phone := user.phone,
          password_hash := get_password_hash salt user.password, is_admin := true }
      .ok (db_user, db ++ [db_user])

/-- The OAuth2 password form: username carries the email. -/
structure LoginForm where
  username : String
  password : String
deriving DecidableEq

/-- HTTPExceptions raised by the two login handlers: 401 and 403. -/
inductive LoginErr where
  | credentialsInvalid
  | forbidden
deriving DecidableEq

/-- Model of login (auth.py lines 83-94): missing account or wrong
password yield 401; an admin account is then rejected with 403; otherwise
a token for the account id is issued with token_type bearer. -/
def login (key : String) (now : Nat) (form_data : LoginForm)
    (db : List User) : Except LoginErr (TokenStr × String) :=
  match get_user_by_email db form_data.username with
  | none => .error .credentialsInvalid
  | some user =>
    if verify_password form_data.password user.password_hash then
      if user.is_admin then .error .forbidden
      else .ok (create_access_token key now (some (pyStr user.id)) none, "bearer")
    else .error .credentialsInvalid

/-- Model of admin_login (auth.py lines 96-107): missing account or wrong
password yield 401; a non-admin account is then rejected with 403. -/
def admin_login (key : String) (now : Nat) (form_data : LoginForm)
    (db : List User) : Except LoginErr (TokenStr × String) :=
  match get_user_by_email db form_data.username with
  | none => .error .credentialsInvalid
  | some user =>
    if verify_password form_data.password user.password_hash then
      if user.is_admin then
        .ok (create_access_token key now (some (pyStr user.id)) none, "bearer")
      else .error .forbidden
    else .error .credentialsInvalid

/-! ## The bulk-delete endpoint (main.py lines 69-78) and the remaining
tables (models.py lines 18-55). -/

/-- reviews table. -/
structure Review where
  id : Nat
  user_id : Option Nat
  guest_name : Option String
  guest_phone : Option String
  rating : Int
  text : String
  created_at : Nat
  admin_reply : Option String
deriving DecidableEq

/-- questions table. -/
structure Question where
  id : Nat
  user_id : Option Nat
  guest_name : Option String
  guest_phone : Option String
  text : String
  created_at : Nat
  admin_reply : Option String
  is_read : Bool
deriving DecidableEq

/-- specialists table. -/
structure Specialist where
  id : Nat
  name : String
  position : String
  specialization : Option String
  workplace : Option String
  education : Option String
  extra_qual : Option String
  photo : Option String
  created_at : Nat
  updated_at : Nat
deriving DecidableEq

/-- The whole application database. -/
structure AppDb where
  users : List User
  reviews : List Review
  questions : List Question
  specialists : List Specialist
deriving DecidableEq

/-- Model of the clear_all handler (main.py lines 69-78).  The route
declares no authentication dependency, so every request reaches the
handler whatever its Authorization header, modelled as the unused
authorization argument; the handler deletes every row of the four tables
and answers with status ok. -/
def clear_all (authorization : Option String) (db : AppDb) : AppDb × String :=
  ({ users := [], reviews := [], questions := [], specialists := [] }, "ok")

/-! ## The admin bootstrap script (create_admin.py lines 5-43). -/

/-- Apply f to the first list element satisfying p, as a SQLAlchemy
update through the object returned by a first() query. -/
def updateFirst (p : User → Bool) (f : User → User) : List User → List User
  | [] => []
  | u :: us => if p u then f u :: us else u :: updateFirst p f us

/-- First half of create_admin (create_admin.py lines 11-15): if the
first admin row has an email other than admin@biosphere.ru, it is
demoted. -/
def create_admin_step1 (db : List User) : List User :=
  match db.find? (fun u => u.is_admin) with
  | some existing_admin =>
    if existing_admin.email != "admin@biosphere.ru" then
      updateFirst (fun u => u.is_admin) (fun u => { u with is_admin := false }) db
    else db
  | none => db

/-- Second half of create_admin (create_admin.py lines 17-34): the first
row with email admin@biosphere.ru is promoted to admin with a reset
password ADMINBIO, name and phone, or such a row is inserted if none
exists. -/
def create_admin_step2 (salt : Nat) (nextId : Nat) (db1 : List User) : List User :=
  match db1.find? (fun u => u.email == "admin@biosphere.ru") with
  | some _ =>
    updateFirst (fun u => u.email == "admin@biosphere.ru")
      (fun u =>
        { u with is_admin := true,
                 password_hash := get_password_hash salt "ADMINBIO",
                 name := "Admin", phone := "0000000000" }) db1
  | none =>
    db1 ++ [{ id := nextId, name := "Admin", email := "admin@biosphere.ru",
              phone := "0000000000",
              password_hash := get_password_hash salt "ADMINBIO",
              is_admin := true }]

/-- Model of create_admin (create_admin.py lines 5-43): the demotion step
followed by the promotion-or-insertion step, committed together. -/
def create_admin (salt : Nat) (nextId : Nat) (db : List User) : List User :=
  create_admin_step2 salt nextId (create_admin_step1 db)

/-! ## Helper lemmas -/

theorem jwt_decode_encode (key : String) (now : Nat) (c : Claims)
    (h : ¬ now > c.exp) : jwt_decode key now (jwt_encode key c) = .ok c := by
  simp [jwt_decode, jwt_encode, h]

theorem find?_append_left_none {α : Type} {p : α → Bool} {l₁ l₂ : List α}
    (h : l₁.find? p = none) : (l₁ ++ l₂).find? p = l₂.find? p := by
  rw [List.find?_append, h, Option.none_or]

/-! ## Claim theorems -/

/-- C6: for every plaintext password and every string given as the stored
hash, verification returns a boolean and never throws; in particular, on
a malformed hash it returns false. -/
theorem verify_password_total_and_malformed_false :
    ∀ plain h : String,
      (verify_password plain h = true ∨ verify_password plain h = false) ∧
      (parseHash h = none → verify_password plain h = false) := by
  intro plain h
  constructor
  · exact Bool.eq_false_or_eq_true (verify_password plain h)
  · intro hmal
    unfold verify_password
    rw [hmal]

theorem verify_password_total_and_malformed_false_witness :
    parseHash "nothash" = none ∧ verify_password "pw" "nothash" = false := by
  refine ⟨by decide, ?_⟩
  exact (verify_password_total_and_malformed_false "pw" "nothash").2 (by decide)

/-- C7: for every password p and every salt drawn by the hasher,
verifying p against the hash produced for p succeeds. -/
theorem verify_password_of_get_password_hash (salt : Nat) (p : String) :
    verify_password p (get_password_hash salt p) = true := by
  unfold verify_password
  rw [parseHash_get_password_hash]
  simp

theorem get_current_user_resolves (key : String) (now : Nat) (t : TokenStr)
    (db : List User) (c : Claims) (s : String) (n : Int) (a : User)
    (hdec : jwt_decode key now t = .ok c) (hsub : c.sub = some s)
    (hn : pyInt s = some n)
    (hfind : db.find? (fun u => ((u.id : Int) == n)) = some a) :
    get_current_user key now t db = .ok a := by
  unfold get_current_user
  simp only [hdec, hsub, hn, hfind]

/-- C5: presenting the token issued for an existing account a (subject
the decimal string of its id, default seven-day TTL) to get_current_user
immediately after issuance returns account a, provided the id lookup
resolves to a (ids are the primary key). -/
theorem authenticate_issue_roundtrip (key : String) (now : Nat) (a : User)
    (db : List User)
    (hfind : db.find? (fun u => ((u.id : Int) == (a.id : Int))) = some a) :
    get_current_user key now
      (create_access_token key now (some (pyStr a.id)) none) db = .ok a :=
  get_current_user_resolves key now
    (create_access_token key now (some (pyStr a.id)) none) db
    { sub := some (pyStr a.id), exp := now + ACCESS_TOKEN_EXPIRE_MINUTES * 60 }
    (pyStr a.id) ((a.id : Nat) : Int) a
    (jwt_decode_encode key now
      { sub := some (pyStr a.id), exp := now + ACCESS_TOKEN_EXPIRE_MINUTES * 60 }
      (by show ¬ now > now + ACCESS_TOKEN_EXPIRE_MINUTES * 60; omega))
    rfl (pyInt_pyStr a.id) hfind

theorem authenticate_issue_roundtrip_witness :
    get_current_user "supersecret" 0
      (create_access_token "supersecret" 0 (some (pyStr 1)) none)
      [⟨1, "A", "a@x.ru", "1", "h", false⟩] =
      .ok ⟨1, "A", "a@x.ru", "1", "h", false⟩ :=
  authenticate_issue_roundtrip "supersecret" 0 ⟨1, "A", "a@x.ru", "1", "h", false⟩
    [⟨1, "A", "a@x.ru", "1", "h", false⟩] (by decide)

/-- C2 counterexample: a token signed with the configured key whose sub
claim is the non-numeric string abc passes verification, but the int
conversion at auth.py line 125 sits outside the try/except, so the
handler raises an uncaught ValueError instead of the undifferentiated
401 CredentialsInvalid the claim requires. -/
theorem get_current_user_nonint_subject_uncaught :
    get_current_user "supersecret" 0
      (jwt_encode "supersecret" { sub := some "abc", exp := 1 }) [] =
      .uncaughtError "ValueError" ∧
    AuthOutcome.uncaughtError "ValueError" ≠ AuthOutcome.credentialsInvalid := by
  exact ⟨by decide, by decide⟩

theorem get_current_user_of_decode_error (key : String) (now : Nat)
    (t : TokenStr) (db : List User) (e : JWTErr)
    (hdec : jwt_decode key now t = .error e) :
    get_current_user key now t db = .credentialsInvalid := by
  unfold get_current_user
  simp only [hdec]

theorem get_current_user_of_no_sub (key : String) (now : Nat)
    (t : TokenStr) (db : List User) (c : Claims)
    (hdec : jwt_decode key now t = .ok c) (hsub : c.sub = none) :
    get_current_user key now t db = .credentialsInvalid := by
  unfold get_current_user
  simp only [hdec, hsub]

theorem get_current_user_of_no_account (key : String) (now : Nat)
    (t : TokenStr) (db : List User) (c : Claims) (s : String) (n : Int)
    (hdec : jwt_decode key now t = .ok c) (hsub : c.sub = some s)
    (hn : pyInt s = some n)
    (hfind : db.find? (fun u => ((u.id : Int) == n)) = none) :
    get_current_user key now t db = .credentialsInvalid := by
  unfold get_current_user
  simp only [hdec, hsub, hn, hfind]

theorem subjectUnparseable_true (key : String) (now : Nat) (t : TokenStr)
    (c : Claims) (s : String)
    (hdec : jwt_decode key now t = .ok c) (hsub : c.sub = some s)
    (hn : pyInt s = none) : subjectUnparseable key now t = true := by
  unfold subjectUnparseable
  simp only [hdec, hsub, hn, Option.isNone]

/-- C2 amended: for every presented token that is not a verified token
carrying a non-integer subject string, get_current_user either fails with
the single undifferentiated CredentialsInvalid error or returns an
account of the store; in the excluded case the int conversion sits
outside the try/except and an uncaught ValueError escapes instead. -/
theorem get_current_user_outcomes (key : String) (now : Nat) (t : TokenStr)
    (db : List User) (h : subjectUnparseable key now t = false) :
    get_current_user key now t db = .credentialsInvalid ∨
    ∃ u, u ∈ db ∧ get_current_user key now t db = .ok u := by
  cases hdec : jwt_decode key now t with
  | error e => exact Or.inl (get_current_user_of_decode_error key now t db e hdec)
  | ok c =>
    cases hsub : c.sub with
    | none => exact Or.inl (get_current_user_of_no_sub key now t db c hdec hsub)
    | some s =>
      cases hn : pyInt s with
      | none =>
        rw [subjectUnparseable_true key now t c s hdec hsub hn] at h
        exact absurd h (by simp)
      | some n =>
        cases hf : db.find? (fun u => ((u.id : Int) == n)) with
        | none =>
          exact Or.inl (get_current_user_of_no_account key now t db c s n hdec hsub hn hf)
        | some u =>
          exact Or.inr ⟨u, List.mem_of_find?_eq_some hf,
            get_current_user_resolves key now t db c s n u hdec hsub hn hf⟩

theorem get_current_user_outcomes_witness :
    get_current_user "supersecret" 0 (TokenStr.badFormat "zzz") [] =
      .credentialsInvalid ∨
    ∃ u, u ∈ ([] : List User) ∧
      get_current_user "supersecret" 0 (TokenStr.badFormat "zzz") [] = .ok u :=
  get_current_user_outcomes "supersecret" 0 (TokenStr.badFormat "zzz") [] (by decide)

/-- C1: every account created by the generic registration operation has
is_admin false, irrespective of any caller-supplied admin flag in the
request payload. -/
theorem register_always_nonadmin (salt nextId : Nat) (payload : UserCreate)
    (db : List User) (u : User) (db2 : List User)
    (h : register salt nextId payload db = .ok (u, db2)) :
    u.is_admin = false := by
  unfold register at h
  cases hfind : get_user_by_email db payload.email with
  | some v => rw [hfind] at h; exact absurd h (by simp)
  | none =>
    rw [hfind] at h
    simp only [Except.ok.injEq, Prod.mk.injEq] at h
    rw [← h.1]

theorem register_always_nonadmin_witness :
    User.is_admin
      { id := 1, name := "N", email := "n@x.ru", phone := "1",
        password_hash := get_password_hash 0 "pw", is_admin := false } = false :=
  register_always_nonadmin 0 1 ⟨"N", "n@x.ru", "1", "pw", some true⟩ [] _ _ rfl

/-- C3 counterexample: an admin-registration request whose email is not
the sentinel but equals the email of an existing account fails with
DuplicateEmail, not Forbidden: the duplicate check runs first. -/
theorem register_admin_nonsentinel_not_forbidden_cex :
    register_admin 0 2 ⟨"N", "user@x.ru", "2", "pw", none⟩
      [⟨1, "M", "user@x.ru", "1", "h", false⟩] = .error .duplicateEmail ∧
    RegErr.duplicateEmail ≠ RegErr.forbidden := by
  exact ⟨rfl, by decide⟩

/-- C3 amended: every admin-registration request whose email is not the
configured sentinel address and is not already registered fails with
Forbidden, for all values of the other fields; when the email equals the
email of an existing account the duplicate check fires first and the
request fails with DuplicateEmail instead. -/
theorem register_admin_nonsentinel_forbidden (salt nextId : Nat)
    (payload : UserCreate) (db : List User)
    (hfresh : get_user_by_email db payload.email = none)
    (hemail : payload.email ≠ "admin@biosfera.ru") :
    register_admin salt nextId payload db = .error .forbidden := by
  unfold register_admin
  rw [hfresh]
  simp [bne_iff_ne, hemail]

theorem register_admin_nonsentinel_forbidden_witness :
    register_admin 0 1 ⟨"N", "user@x.ru", "1", "pw", none⟩ [] = .error .forbidden :=
  register_admin_nonsentinel_forbidden 0 1 ⟨"N", "user@x.ru", "1", "pw", none⟩ []
    rfl (by decide)

/-- C8: a registration request, on either the generic or the admin path,
whose email equals the email of an existing account fails with
DuplicateEmail and creates no account (the error result carries no new
database state), regardless of the other field values. -/
theorem duplicate_email_rejected (salt nextId : Nat) (payload : UserCreate)
    (db : List User) (u : User)
    (hdup : get_user_by_email db payload.email = some u) :
    register salt nextId payload db = .error .duplicateEmail ∧
    register_admin salt nextId payload db = .error .duplicateEmail := by
  unfold register register_admin
  rw [hdup]
  exact ⟨rfl, rfl⟩

theorem duplicate_email_rejected_witness :
    register 3 2 ⟨"A", "dup@x.ru", "2", "pw2", some true⟩
      [⟨1, "B", "dup@x.ru", "1", "h", true⟩] = .error .duplicateEmail ∧
    register_admin 3 2 ⟨"A", "dup@x.ru", "2", "pw2", some true⟩
      [⟨1, "B", "dup@x.ru", "1", "h", true⟩] = .error .duplicateEmail :=
  duplicate_email_rejected 3 2 ⟨"A", "dup@x.ru", "2", "pw2", some true⟩
    [⟨1, "B", "dup@x.ru", "1", "h", true⟩] ⟨1, "B", "dup@x.ru", "1", "h", true⟩ rfl

/-- C4: with correct credentials, an admin account is rejected by the
non-admin lane with Forbidden and a non-admin account is rejected by the
admin lane with Forbidden; in both lanes a missing account or a wrong
password fails with CredentialsInvalid before the role-lane check. -/
theorem login_lane_gate :
    (∀ (key : String) (now : Nat) (form : LoginForm) (db : List User) (u : User),
      get_user_by_email db form.username = some u →
      verify_password form.password u.password_hash = true →
      u.is_admin = true →
      login key now form db = .error .forbidden) ∧
    (∀ (key : String) (now : Nat) (form : LoginForm) (db : List User) (u : User),
      get_user_by_email db form.username = some u →
      verify_password form.password u.password_hash = true →
      u.is_admin = false →
      admin_login key now form db = .error .forbidden) ∧
    (∀ (key : String) (now : Nat) (form : LoginForm) (db : List User),
      get_user_by_email db form.username = none →
      login key now form db = .error .credentialsInvalid ∧
      admin_login key now form db = .error .credentialsInvalid) ∧
    (∀ (key : String) (now : Nat) (form : LoginForm) (db : List User) (u : User),
      get_user_by_email db form.username = some u →
      verify_password form.password u.password_hash = false →
      login key now form db = .error .credentialsInvalid ∧
      admin_login key now form db = .error .credentialsInvalid) := by
  refine ⟨?_, ?_, ?_, ?_⟩
  · intro key now form db u hu hpw hadm
    unfold login
    rw [hu]
    simp [hpw, hadm]
  · intro key now form db u hu hpw hadm
    unfold admin_login
    rw [hu]
    simp [hpw, hadm]
  · intro key now form db hu
    unfold login admin_login
    rw [hu]
    exact ⟨rfl, rfl⟩
  · intro key now form db u hu hpw
    unfold login admin_login
    rw [hu]
    simp [hpw]

theorem login_lane_gate_witness :
    login "supersecret" 0 ⟨"a@x.ru", "pw"⟩
      [⟨1, "A", "a@x.ru", "1", get_password_hash 0 "pw", true⟩] =
      .error .forbidden ∧
    admin_login "supersecret" 0 ⟨"b@x.ru", "pw"⟩
      [⟨2, "B", "b@x.ru", "2", get_password_hash 0 "pw", false⟩] =
      .error .forbidden ∧
    (login "supersecret" 0 ⟨"c@x.ru", "pw"⟩ [] = .error .credentialsInvalid ∧
     admin_login "supersecret" 0 ⟨"c@x.ru", "pw"⟩ [] = .error .credentialsInvalid) ∧
    (login "supersecret" 0 ⟨"a@x.ru", "wrong"⟩
        [⟨1, "A", "a@x.ru", "1", get_password_hash 0 "pw", true⟩] =
        .error .credentialsInvalid ∧
     admin_login "supersecret" 0 ⟨"a@x.ru", "wrong"⟩
        [⟨1, "A", "a@x.ru", "1", get_password_hash 0 "pw", true⟩] =
        .error .credentialsInvalid) :=
  ⟨login_lane_gate.1 "supersecret" 0 ⟨"a@x.ru", "pw"⟩
      [⟨1, "A", "a@x.ru", "1", get_password_hash 0 "pw", true⟩]
      ⟨1, "A", "a@x.ru", "1", get_password_hash 0 "pw", true⟩ rfl (by decide) rfl,
   login_lane_gate.2.1 "supersecret" 0 ⟨"b@x.ru", "pw"⟩
      [⟨2, "B", "b@x.ru", "2", get_password_hash 0 "pw", false⟩]
      ⟨2, "B", "b@x.ru", "2", get_password_hash 0 "pw", false⟩ rfl (by decide) rfl,
   login_lane_gate.2.2.1 "supersecret" 0 ⟨"c@x.ru", "pw"⟩ [] rfl,
   login_lane_gate.2.2.2 "supersecret" 0 ⟨"a@x.ru", "wrong"⟩
      [⟨1, "A", "a@x.ru", "1", get_password_hash 0 "pw", true⟩]
      ⟨1, "A", "a@x.ru", "1", get_password_hash 0 "pw", true⟩ rfl (by decide)⟩

/-- C9: every request to the clear_all endpoint, including one with no
Authorization header, deletes every Review, Question, User and Specialist
record and returns status ok; the handler performs no token verification
and no admin check, so the outcome does not depend on the header. -/
theorem clear_all_unauthenticated_deletes_all (authorization : Option String)
    (db : AppDb) :
    clear_all authorization db =
      ({ users := [], reviews := [], questions := [], specialists := [] }, "ok") ∧
    clear_all authorization db = clear_all none db :=
  ⟨rfl, rfl⟩

/-- C10 counterexample: with a pre-existing admin account carrying the
bootstrap email admin@biosphere.ru, an account that becomes admin through
register_admin (sentinel admin@biosfera.ru) is NOT demoted by a
subsequent create_admin run: the script only demotes the first admin row,
which here is the bootstrap admin whose email matches. -/
theorem create_admin_keeps_registered_admin_cex :
    register_admin 5 2 ⟨"N", "admin@biosfera.ru", "2", "pw", none⟩
      [⟨1, "Admin", "admin@biosphere.ru", "0000000000", "h0", true⟩] =
      .ok (⟨2, "N", "admin@biosfera.ru", "2", get_password_hash 5 "pw", true⟩,
           [⟨1, "Admin", "admin@biosphere.ru", "0000000000", "h0", true⟩,
            ⟨2, "N", "admin@biosfera.ru", "2", get_password_hash 5 "pw", true⟩]) ∧
    (create_admin 7 3
      [⟨1, "Admin", "admin@biosphere.ru", "0000000000", "h0", true⟩,
       ⟨2, "N", "admin@biosfera.ru", "2", get_password_hash 5 "pw", true⟩]).find?
      (fun u => u.id == 2) =
      some ⟨2, "N", "admin@biosfera.ru", "2", get_password_hash 5 "pw", true⟩ ∧
    User.is_admin ⟨2, "N", "admin@biosfera.ru", "2", get_password_hash 5 "pw", true⟩ =
      true :=
  ⟨rfl, rfl, rfl⟩

theorem updateFirst_append_of_all_false (p : User → Bool) (f : User → User)
    (l₁ l₂ : List User) (h : ∀ x ∈ l₁, p x = false) :
    updateFirst p f (l₁ ++ l₂) = l₁ ++ updateFirst p f l₂ := by
  induction l₁ with
  | nil => rfl
  | cons a l ih =>
    have ha : p a = false := h a (List.mem_cons_self a l)
    have hrec := ih (fun x hx => h x (List.mem_cons_of_mem a hx))
    simp [updateFirst, ha, hrec]

theorem mem_updateFirst_of_false (p : User → Bool) (f : User → User)
    (x : User) (l : List User) (hmem : x ∈ l) (hpx : p x = false) :
    x ∈ updateFirst p f l := by
  induction l with
  | nil => simp at hmem
  | cons a as ih =>
    rcases List.mem_cons.mp hmem with rfl | h2
    · unfold updateFirst
      rw [if_neg (by simp [hpx])]
      exact List.mem_cons_self _ _
    · by_cases hpa : p a = true
      · unfold updateFirst
        rw [if_pos hpa]
        exact List.mem_cons_of_mem _ h2
      · unfold updateFirst
        rw [if_neg hpa]
        exact List.mem_cons_of_mem _ (ih h2)

/-- C10 amended: the sentinel accepted by register_admin is
admin@biosfera.ru while the bootstrap script uses admin@biosphere.ru;
if the table holds no admin row, an account that becomes admin via
register_admin is demoted by a subsequent create_admin run (its row
survives with is_admin false).  When an admin row with the bootstrap
email already precedes it, create_admin leaves the account admin (see
the counterexample). -/
theorem create_admin_demotes_fresh_sentinel_admin
    (salt nextId : Nat) (payload : UserCreate) (db : List User)
    (u : User) (db2 : List User) (salt2 nextId2 : Nat)
    (hnoadmin : db.find? (fun x => x.is_admin) = none)
    (hreg : register_admin salt nextId payload db = .ok (u, db2)) :
    u.is_admin = true ∧ u.email = "admin@biosfera.ru" ∧
    ∃ v ∈ create_admin salt2 nextId2 db2,
      v.id = u.id ∧ v.email = u.email ∧ v.is_admin = false := by
  unfold register_admin at hreg
  cases hfind : get_user_by_email db payload.email with
  | some w => rw [hfind] at hreg; exact absurd hreg (by simp)
  | none =>
    rw [hfind] at hreg
    by_cases hbe : (payload.email != "admin@biosfera.ru") = true
    · rw [if_pos hbe] at hreg
      exact absurd hreg (by simp)
    · rw [if_neg hbe] at hreg
      have hemail : payload.email = "admin@biosfera.ru" := by
        simpa [bne_iff_ne] using hbe
      simp only [Except.ok.injEq, Prod.mk.injEq] at hreg
      obtain ⟨hu, hdb2⟩ := hreg
      have hadm : u.is_admin = true := by rw [← hu]
      have hemail2 : u.email = "admin@biosfera.ru" := by rw [← hu]; exact hemail
      rw [hu] at hdb2
      subst hdb2
      refine ⟨hadm, hemail2, ?_⟩
      have hall : ∀ x ∈ db, x.is_admin = false := by
        intro x hx
        have hnx := List.find?_eq_none.mp hnoadmin x hx
        simpa using hnx
      have hfadmin : (db ++ [u]).find? (fun x => x.is_admin) = some u := by
        rw [find?_append_left_none hnoadmin]
        exact List.find?_cons_of_pos _ hadm
      have hbne2 : (u.email != "admin@biosphere.ru") = true := by
        rw [hemail2]
        decide
      have hstep1 : create_admin_step1 (db ++ [u]) =
          db ++ [{ u with is_admin := false }] := by
        unfold create_admin_step1
        simp only [hfadmin]
        rw [if_pos hbne2, updateFirst_append_of_all_false _ _ db _ hall]
        simp [updateFirst, hadm]
      have hpw2 : (({ u with is_admin := false } : User).email ==
          "admin@biosphere.ru") = false := by
        show (u.email == "admin@biosphere.ru") = false
        rw [hemail2]
        decide
      have hmem2 : ({ u with is_admin := false } : User) ∈
          create_admin_step2 salt2 nextId2 (db ++ [{ u with is_admin := false }]) := by
        have hmem0 : ({ u with is_admin := false } : User) ∈
            db ++ [{ u with is_admin := false }] := by simp
        unfold create_admin_step2
        cases hf2 : (db ++ [{ u with is_admin := false }]).find?
            (fun x : User => x.email == "admin@biosphere.ru") with
        | some z =>
          exact mem_updateFirst_of_false
            (fun x : User => x.email == "admin@biosphere.ru") _ _ _ hmem0 hpw2
        | none => exact List.mem_append_left _ hmem0
      refine ⟨{ u with is_admin := false }, ?_, rfl, rfl, rfl⟩
      show _ ∈ create_admin_step2 salt2 nextId2 (create_admin_step1 (db ++ [u]))
      rw [hstep1]
      exact hmem2

theorem create_admin_demotes_fresh_sentinel_admin_witness :
    User.is_admin ⟨7, "N", "admin@biosfera.ru", "5", get_password_hash 2 "pw", true⟩ =
      true ∧
    User.email ⟨7, "N", "admin@biosfera.ru", "5", get_password_hash 2 "pw", true⟩ =
      "admin@biosfera.ru" ∧
    ∃ v ∈ create_admin 3 9
        [⟨7, "N", "admin@biosfera.ru", "5", get_password_hash 2 "pw", true⟩],
      v.id = User.id ⟨7, "N", "admin@biosfera.ru", "5", get_password_hash 2 "pw", true⟩ ∧
      v.email =
        User.email ⟨7, "N", "admin@biosfera.ru", "5", get_password_hash 2 "pw", true⟩ ∧
      v.is_admin = false :=
  create_admin_demotes_fresh_sentinel_admin 2 7
    ⟨"N", "admin@biosfera.ru", "5", "pw", none⟩ []
    ⟨7, "N", "admin@biosfera.ru", "5", get_password_hash 2 "pw", true⟩
    [⟨7, "N", "admin@biosfera.ru", "5", get_password_hash 2 "pw", true⟩] 3 9
    rfl rfl

end Biophere
